import Mathlib

/-!
Shallow embedding of the NLP_project query-routing system
(src/query_classifier.py, src/web_search_tavily.py,
src/intelligent_source_router.py).

External effects (LLM calls, HTTP requests, the local document retriever,
wall-clock time) are modelled as explicit oracle parameters: a value of
type `Except Unit α` (or `Except String α`) stands for one call that
either raises an exception or returns a decoded payload.  Python floats
are modelled as rationals, Python dicts with optional keys as structures
with `Option` fields, and Python string truthiness as "present and
non-empty".
-/

namespace NLP

/-! ### String helpers mirroring Python primitives -/

/-- Membership test for character lists: does `pat` occur as a contiguous
infix of the second list?  Mirrors Python's `pat in s` for strings. -/
def listContainsSub (pat : List Char) : List Char → Bool
  | [] => pat.isEmpty
  | c :: rest => pat.isPrefixOf (c :: rest) || listContainsSub pat rest

/-- Python `pat in s` on strings. -/
def strContainsSub (s pat : String) : Bool := listContainsSub pat.data s.data

/-- Python `s.startswith(pat)`. -/
def strStartsWith (s pat : String) : Bool := pat.data.isPrefixOf s.data

/-- Python `s.lower()` (character-wise, as in `str.lower` for the
ASCII keyword sets used by the classifier). -/
def strLower (s : String) : String := ⟨s.data.map Char.toLower⟩

/-- Python slicing `s[:n]` (by code points). -/
def strTake (s : String) (n : Nat) : String := ⟨s.data.take n⟩

/-- Python `str.title()`: uppercase the first character of each
alphabetic run, lowercase the rest. -/
def titleAux : Bool → List Char → List Char
  | _, [] => []
  | prevAlpha, c :: rest =>
    let c' := if c.isAlpha then (if prevAlpha then c.toLower else c.toUpper) else c
    c' :: titleAux c.isAlpha rest

/-- Python `str.title()`. -/
def strTitle (s : String) : String := ⟨titleAux false s.data⟩

/-- Python truthiness of a possibly-missing string value
(`None`, absent and `""` are falsy). -/
def truthyOpt : Option String → Bool
  | some s => s ≠ ""
  | none => false

/-- `String.mk (List.replicate n c)`: Python `c * n`. -/
def strRepeat (c : Char) (n : Nat) : String := ⟨List.replicate n c⟩

/-- Enumerate a list starting at index `i` (Python `enumerate(xs, i)`). -/
def enumFrom (i : Nat) : List α → List (Nat × α)
  | [] => []
  | a :: as => (i, a) :: enumFrom (i + 1) as

/-! ### Data model: search results (web_search_tavily.py) -/

/-- One search result dict as produced by the providers in
`web_search_tavily.py`.  Keys that some providers omit are `Option`s. -/
structure SearchResult where
  title : String
  url : String
  snippet : String
  raw_content : Option String := none
  source : String
  type : String := "web"
  full_content : Option String := none
deriving Repr, DecidableEq

/-! ### TavilySearchIntegration (web_search_tavily.py lines 24-125) -/

/-- One entry of the decoded Tavily `results` array; `Option` fields
model keys the JSON may omit (`result.get(..., default)`). -/
structure TavilyRawResult where
  title : Option String := none
  url : Option String := none
  snippet : Option String := none
  raw_content : Option String := none
deriving Repr, DecidableEq

/-- Decoded Tavily response body. -/
structure TavilyResponse where
  answer : Option String := none
  results : List TavilyRawResult := []
deriving Repr, DecidableEq

/-- `TavilySearchIntegration.search`.  The network round-trip
(`requests.post` + `raise_for_status` + `.json()`) is the oracle `net`;
`.error ()` is any raised exception (timeout, connection error, bad
status, decode failure).  The second component of the result records
whether a network request was issued. -/
def TavilySearchIntegration.search (api_key : Option String)
    (net : Except Unit TavilyResponse) (max_results : Nat)
    (include_answer : Bool) : List SearchResult × Bool :=
  if truthyOpt api_key = false then ([], false)
  else
    match net with
    | .error _ => ([], true)
    | .ok data =>
      let answerResults : List SearchResult :=
        if include_answer ∧ truthyOpt data.answer then
          [{ title := "Direct Answer", url := "",
             snippet := data.answer.getD "", source := "Tavily",
             type := "answer" }]
        else []
      let webResults : List SearchResult :=
        (data.results.take max_results).map fun r =>
          { title := r.title.getD "No title", url := r.url.getD "",
            snippet := r.snippet.getD "",
            raw_content := some (r.raw_content.getD ""),
            source := "Tavily", type := "web" }
      (answerResults ++ webResults, true)

/-! ### WebSearchEnhanced providers (web_search_tavily.py lines 128-403) -/

/-- One entry of the Wikipedia API `query.search` array. -/
structure WikiRawResult where
  title : Option String := none
  snippet : Option String := none
deriving Repr, DecidableEq

/-- `WebSearchEnhanced.search_wikipedia`: the whole body is inside one
`try`, so a raised exception yields `[]`. -/
def search_wikipedia (net : Except Unit (List WikiRawResult)) :
    List SearchResult :=
  match net with
  | .error _ => []
  | .ok rs => rs.map fun r =>
      { title := r.title.getD "No title",
        url := "https://en.wikipedia.org/wiki/" ++
          (r.title.getD "").replace " " "_",
        snippet := ((r.snippet.getD "").replace
          "<span class=\"searchmatch\">" "").replace "</span>" "",
        source := "Wikipedia" }

/-- One parsed ArXiv Atom entry.  `title = none` models a missing
`<title>` element (the entry is then skipped); the texts of `<summary>`
and `<id>` default to `""` when absent, as in `elem.text or ...`. -/
structure ArxivEntry where
  title : Option String := none
  summary : String := ""
  idUrl : String := ""
deriving Repr, DecidableEq

/-- `WebSearchEnhanced.search_arxiv`. -/
def search_arxiv (net : Except Unit (List ArxivEntry)) :
    List SearchResult :=
  match net with
  | .error _ => []
  | .ok entries => entries.filterMap fun e =>
      match e.title with
      | none => none
      | some t =>
        some { title := if t = "" then "No title" else t,
               url := e.idUrl.replace "http://" "https://",
               snippet := strTake e.summary 300,
               source := "ArXiv" }

/-- One item of the Google Custom Search `items` array. -/
structure GoogleItem where
  title : Option String := none
  link : Option String := none
  snippet : Option String := none
deriving Repr, DecidableEq

/-- `WebSearchEnhanced.search_google_api`.  Missing credentials
(`not self.google_api_key or not self.google_search_engine_id`) yield
an immediate `[]` with no network request (second component `false`). -/
def search_google_api (google_api_key google_search_engine_id : Option String)
    (net : Except Unit (List GoogleItem)) (results_limit : Nat) :
    List SearchResult × Bool :=
  if truthyOpt google_api_key = false ∨
     truthyOpt google_search_engine_id = false then ([], false)
  else
    match net with
    | .error _ => ([], true)
    | .ok items =>
      ((items.take results_limit).map fun it =>
        { title := it.title.getD "No title", url := it.link.getD "",
          snippet := it.snippet.getD "", source := "Google" }, true)

/-- One item of the Bing `webPages.value` array. -/
structure BingItem where
  name : Option String := none
  url : Option String := none
  snippet : Option String := none
deriving Repr, DecidableEq

/-- `WebSearchEnhanced.search_bing_api`. -/
def search_bing_api (bing_api_key : Option String)
    (net : Except Unit (List BingItem)) (results_limit : Nat) :
    List SearchResult × Bool :=
  if truthyOpt bing_api_key = false then ([], false)
  else
    match net with
    | .error _ => ([], true)
    | .ok items =>
      ((items.take results_limit).map fun it =>
        { title := it.name.getD "No title", url := it.url.getD "",
          snippet := it.snippet.getD "", source := "Bing" }, true)

/-- `WebSearchEnhanced.search_mock` (lines 380-403): the synthetic
last-resort generator.  `current_time` and `current_date` stand for the
two `datetime.now().strftime(...)` calls. -/
def search_mock (query current_time current_date : String) :
    List SearchResult :=
  [ { title := "Information about " ++ query,
      url := "https://local.search/results?q=" ++ query.replace " " "+",
      snippet := "Based on available knowledge about " ++ query ++
        " as of " ++ current_date ++ ". This is a local cached result.",
      source := "Local Cache" },
    { title := "Related: " ++ strTitle query ++ " Overview",
      url := "https://local.search/related?q=" ++ query.replace " " "+",
      snippet := "General information and context related to " ++ query ++
        ". Updated: " ++ current_time ++ ".",
      source := "Local Cache" } ]

/-! ### WebSearchEnhanced.search: the fallback chain -/

/-- The per-instance configuration and one call's worth of oracle
responses for `WebSearchEnhanced`. -/
structure WebEnv where
  tavily_api_key : Option String := none
  google_api_key : Option String := none
  google_search_engine_id : Option String := none
  bing_api_key : Option String := none
  max_results : Nat := 5
  tavilyNet : Except Unit TavilyResponse := .error ()
  wikiNet : Except Unit (List WikiRawResult) := .error ()
  arxivNet : Except Unit (List ArxivEntry) := .error ()
  googleNet : Except Unit (List GoogleItem) := .error ()
  bingNet : Except Unit (List BingItem) := .error ()
  now_time : String := ""
  now_date : String := ""

/-- Python `max_results or self.max_results` (0 and `None` are falsy). -/
def resolveLimit (mr : Option Nat) (selfMax : Nat) : Nat :=
  match mr with
  | some n => if n = 0 then selfMax else n
  | none => selfMax

/-- `WebSearchEnhanced.search` (lines 405-474): try each provider in
order, return the first non-empty result list, fall back to
`search_mock` when every real provider declines. -/
def WebSearchEnhanced.search (env : WebEnv) (query : String)
    (max_results : Option Nat) : List SearchResult :=
  let results_limit := resolveLimit max_results env.max_results
  let t := (TavilySearchIntegration.search env.tavily_api_key env.tavilyNet
    results_limit true).1
  if t ≠ [] then t else
  let w := search_wikipedia env.wikiNet
  if w ≠ [] then w else
  let a := search_arxiv env.arxivNet
  if a ≠ [] then a else
  let g := (search_google_api env.google_api_key env.google_search_engine_id
    env.googleNet results_limit).1
  if g ≠ [] then g else
  let b := (search_bing_api env.bing_api_key env.bingNet results_limit).1
  if b ≠ [] then b else
  search_mock query env.now_time env.now_date

/-! ### WebSearchEnhanced.fetch_page_content and search_and_extract
(web_search_tavily.py lines 476-537) -/

/-- The whitespace normalisation of `fetch_page_content`: strip each
line, split lines on single spaces, strip each phrase, join the
non-empty phrases with single spaces. -/
def collapseWhitespace (text : String) : String :=
  let lines := (text.splitOn "\n").map String.trim
  let chunks := (lines.map fun l => (l.splitOn " ").map String.trim).flatten
  String.intercalate " " (chunks.filter fun c => c ≠ "")

/-- `WebSearchEnhanced.fetch_page_content`.  The oracle `net` stands for
the GET request plus the BeautifulSoup extraction
(`raise_for_status` / parse failures are `.error ()`, and `.ok raw` is
the text produced by `soup.get_text()` after decomposing
script/style/nav/footer/meta nodes). -/
def fetch_page_content (url : String) (net : Except Unit String) :
    Option String :=
  if url = "" ∨ strStartsWith url "http" = false then none
  else
    match net with
    | .error _ => none
    | .ok raw =>
      let text := collapseWhitespace raw
      let content := strTake text 3000
      if content ≠ "" then some content else none

/-- The per-result enrichment step of `search_and_extract`: fetch the
page when the result has an HTTP url, and fall back to the original
snippet when the fetch fails or yields nothing. -/
def enrichResult (fetchNet : String → Except Unit String)
    (r : SearchResult) : SearchResult :=
  if r.url ≠ "" ∧ strStartsWith r.url "http" = true then
    match fetch_page_content r.url (fetchNet r.url) with
    | some c => { r with full_content := some c }
    | none => { r with full_content := some r.snippet }
  else { r with full_content := some r.snippet }

/-- `WebSearchEnhanced.search_and_extract` (lines 510-537). -/
def search_and_extract (env : WebEnv)
    (fetchNet : String → Except Unit String) (query : String)
    (fetch_content : Bool) : List SearchResult :=
  let results := WebSearchEnhanced.search env query none
  if results = [] ∨ fetch_content = false then results
  else results.map (enrichResult fetchNet)

/-! ### QueryClassifier (query_classifier.py) -/

/-- A routing decision dict as returned by
`QueryClassifier.classify_query` and `_fallback_classification`
(keys `datasource`, `reasoning`, `confidence`, `query`). -/
structure Routing where
  datasource : String
  reasoning : String
  confidence : ℚ
  query : String
deriving Repr, DecidableEq

/-- The dict produced by `_parse_json_response` as seen by
`classify_query` (a parsed JSON object may lack any of the keys). -/
structure ParsedResponse where
  datasource : Option String := none
  reasoning : Option String := none
  confidence : Option ℚ := none
deriving Repr, DecidableEq

/-- `general_knowledge_patterns` of `_is_general_knowledge`. -/
def general_knowledge_patterns : List String :=
  [ "what is", "what are", "who is", "who are",
    "explain", "how does", "how do", "how to",
    "define", "definition of",
    "tell me about", "describe",
    "why", "when", "where",
    "weather", "temperature", "forecast",
    "news", "latest", "current", "recent",
    "history of", "background on" ]

/-- `document_indicators` of `_is_general_knowledge`. -/
def document_indicators : List String :=
  [ "my document", "my file", "my pdf", "my paper",
    "the document", "the file", "the pdf", "the paper",
    "uploaded", "attachment",
    "according to my", "based on my",
    "in my file", "in the document" ]

/-- `QueryClassifier._is_general_knowledge` (lines 153-192). -/
def is_general_knowledge (query : String) : Bool :=
  let query_lower := strLower query
  let has_doc_indicator :=
    document_indicators.any fun ind => strContainsSub query_lower ind
  if has_doc_indicator then false
  else
    let has_general_pattern :=
      general_knowledge_patterns.any fun pat => strContainsSub query_lower pat
    if has_general_pattern then true
    else true

/-- `document_keywords` of `_fallback_classification`. -/
def fallback_document_keywords : List String :=
  [ "my document", "my file", "my pdf", "my paper",
    "the document", "the file", "the pdf", "uploaded file",
    "in my document", "according to my document",
    "what does my", "summarize my", "analyze my" ]

/-- `web_keywords` of `_fallback_classification`. -/
def fallback_web_keywords : List String :=
  [ "latest", "current", "recent", "news", "today", "now",
    "what is", "what are", "explain", "define", "how does",
    "weather", "temperature", "forecast",
    "2025", "2024", "this year" ]

/-- `QueryClassifier._fallback_classification` (lines 235-310). -/
def fallback_classification (query : String) (has_uploaded_docs : Bool) :
    Routing :=
  let query_lower := strLower query
  let has_explicit_doc_ref :=
    fallback_document_keywords.any fun kw => strContainsSub query_lower kw
  let has_web_intent :=
    fallback_web_keywords.any fun kw => strContainsSub query_lower kw
  if has_uploaded_docs = false then
    { datasource := "web_search",
      reasoning := "No local documents available - using web search",
      confidence := 0.9, query := query }
  else if has_explicit_doc_ref ∧ has_uploaded_docs then
    if has_web_intent then
      { datasource := "hybrid",
        reasoning :=
          "Query mentions both uploaded documents and external information",
        confidence := 0.75, query := query }
    else
      { datasource := "local_rag",
        reasoning := "Query explicitly references uploaded documents",
        confidence := 0.85, query := query }
  else if has_web_intent ∨ is_general_knowledge query then
    { datasource := "web_search",
      reasoning := "General knowledge or external information query",
      confidence := 0.8, query := query }
  else
    { datasource := "web_search",
      reasoning := "General query - using web search by default",
      confidence := 0.7, query := query }

/-- `valid_sources` in `classify_query`. -/
def valid_sources : List String := ["local_rag", "web_search", "hybrid"]

/-- `QueryClassifier.classify_query` (lines 89-151).  The oracle `llm`
stands for the chained LLM invocation plus `_parse_json_response`:
`.error ()` is any exception anywhere in the `try` block (which drops
into `_fallback_classification`), and `.ok parsed` is the parsed
response dict. -/
def classify_query (llm : Except Unit ParsedResponse) (query : String)
    (has_uploaded_docs : Bool) : Routing :=
  match llm with
  | .error _ => fallback_classification query has_uploaded_docs
  | .ok parsed =>
    let r1 : ParsedResponse :=
      if parsed.datasource ∈ valid_sources.map some then parsed
      else { parsed with datasource := some "web_search" }
    let r2 : ParsedResponse :=
      if has_uploaded_docs = false ∧
         (r1.datasource = some "local_rag" ∨ r1.datasource = some "hybrid")
      then
        { r1 with datasource := some "web_search",
                  reasoning :=
                    some "No local documents available - using web search",
                  confidence := some 0.9 }
      else r1
    let r3 : ParsedResponse :=
      if has_uploaded_docs = true ∧ r2.datasource = some "local_rag" ∧
         is_general_knowledge query = true then
        { r2 with datasource := some "web_search",
                  reasoning :=
                    some "General knowledge question - using web search",
                  confidence := some 0.85 }
      else r2
    { datasource := r3.datasource.getD "web_search",
      reasoning := r3.reasoning.getD "Default routing",
      confidence := r3.confidence.getD 0.7,
      query := query }

/-! ### IntelligentSourceRouter (intelligent_source_router.py) -/

/-- A caller-facing source dict.  The local and web retrieval paths put
different key sets into `sources`, so every key is optional except the
`type` tag that both paths set. -/
structure Source where
  type : String
  title : Option String := none
  url : Option String := none
  snippet : Option String := none
  full_content : Option String := none
  source : Option String := none
  result_type : Option String := none
  page : Option String := none
  chunk : Option String := none
  content : Option String := none
deriving Repr, DecidableEq

/-- One document returned by the local retriever's
`get_relevant_documents`; the `metadata.get(...)` keys are optional. -/
structure LocalDoc where
  page_content : String
  metaSource : Option String := none
  metaPage : Option String := none
  metaChunk : Option String := none
deriving Repr, DecidableEq

/-- The dict returned by one of `_retrieve_local` / `_retrieve_web` /
`_retrieve_hybrid`.  Keys the Python code sometimes omits are
`Option`s, so `result.update(...)` can be modelled key by key. -/
structure RetrievalResult where
  context : String
  sources : List Source
  retrieval_type : String
  num_results : Option Nat := none
  num_local_results : Option Nat := none
  num_web_results : Option Nat := none
  total_results : Option Nat := none
  error : Option String := none
  raw_search_results : Option (List SearchResult) := none
deriving Repr

/-- The outcome dict built by `route_query` (its initial value plus the
keys merged in by `result.update(retrieval_result)` and the `except`
branch). -/
structure RouteOutcome where
  query : String
  routing : Routing
  context : String
  sources : List Source
  raw_search_results : List SearchResult
  retrieval_type : Option String := none
  num_results : Option Nat := none
  num_local_results : Option Nat := none
  num_web_results : Option Nat := none
  total_results : Option Nat := none
  error : Option String := none
deriving Repr

/-- Dict-update semantics for one optional key: a key present in the
new dict overwrites, an absent key keeps the old value. -/
def updKey (new old : Option α) : Option α :=
  match new with
  | some x => some x
  | none => old

/-- `result.update(retrieval_result)`: keys present in the retrieval
dict overwrite, absent keys keep the previous value. -/
def RouteOutcome.applyRetrieval (o : RouteOutcome) (r : RetrievalResult) :
    RouteOutcome :=
  { o with
    context := r.context,
    sources := r.sources,
    retrieval_type := some r.retrieval_type,
    num_results := updKey r.num_results o.num_results,
    num_local_results := updKey r.num_local_results o.num_local_results,
    num_web_results := updKey r.num_web_results o.num_web_results,
    total_results := updKey r.total_results o.total_results,
    error := updKey r.error o.error,
    raw_search_results := r.raw_search_results.getD o.raw_search_results }

/-- One context block of `_retrieve_local`. -/
def localDocBlock (i : Nat) (d : LocalDoc) : String :=
  let source := d.metaSource.getD "Unknown"
  let page := d.metaPage.getD "N/A"
  let chunk := d.metaChunk.getD "N/A"
  "[Document " ++ toString i ++ "] " ++ source ++ "\n" ++
  (if page ≠ "N/A" then "Page: " ++ page ++ " | " else "") ++
  (if chunk ≠ "N/A" then "Chunk: " ++ chunk ++ "\n" else "") ++
  "Content: " ++ d.page_content ++ "\n\n"

/-- The source dict built per local document. -/
def localDocSource (d : LocalDoc) : Source :=
  { type := "local",
    source := some (d.metaSource.getD "Unknown"),
    page := some (d.metaPage.getD "N/A"),
    chunk := some (d.metaChunk.getD "N/A"),
    content := some d.page_content }

/-- `IntelligentSourceRouter._retrieve_local` (lines 235-305).
`local_retriever = none` is `local_retriever is None`; the oracle inside
models `get_relevant_documents` either raising (`.error msg`, the
message being `str(e)`) or returning a document list. -/
def retrieve_local (query : String)
    (local_retriever : Option (Except String (List LocalDoc))) :
    RetrievalResult :=
  match local_retriever with
  | none =>
    { context := "No local documents available.", sources := [],
      retrieval_type := "local_rag",
      error := some "No local retriever configured" }
  | some (.error e) =>
    { context := "Error retrieving local documents: " ++ e, sources := [],
      retrieval_type := "local_rag", error := some e }
  | some (.ok docs) =>
    if docs = [] then
      { context := "No relevant documents found in uploaded files.",
        sources := [], retrieval_type := "local_rag",
        num_results := some 0 }
    else
      { context := "=== 📄 LOCAL DOCUMENT RESULTS ===\n\n" ++
          String.join ((enumFrom 1 docs).map fun p => localDocBlock p.1 p.2),
        sources := docs.map localDocSource,
        retrieval_type := "local_rag",
        num_results := some docs.length }

/-- `content_to_use` for one web result (`full_content` defaulting to
the snippet, then Python truthiness). -/
def webContentToUse (r : SearchResult) : String :=
  let full_content := r.full_content.getD r.snippet
  if full_content ≠ "" then full_content else r.snippet

/-- One context block of `_retrieve_web`. -/
def webResultBlock (i : Nat) (r : SearchResult) : String :=
  "[Result " ++ toString i ++ "] (" ++ r.source ++ " - " ++ r.type ++
  ")\n" ++ "Title: " ++ r.title ++ "\n" ++
  (if r.url ≠ "" then "URL: " ++ r.url ++ "\n" else "") ++
  "Content:\n" ++ webContentToUse r ++ "\n" ++
  strRepeat '-' 70 ++ "\n\n"

/-- The source dict built per web result in `_retrieve_web`. -/
def webResultSource (r : SearchResult) : Source :=
  { type := "web", title := some r.title, url := some r.url,
    snippet := some r.snippet, full_content := some (webContentToUse r),
    source := some r.source, result_type := some r.type }

/-- The `WebSearchEnhanced` handle owned by the router: its provider
configuration plus the content-fetch oracle and the
`fetch_full_content` flag. -/
structure WebSearchCfg where
  env : WebEnv
  fetchNet : String → Except Unit String
  fetch_full_content : Bool

/-- `IntelligentSourceRouter._retrieve_web` (lines 143-233).
`web = none` is `self.web_search is None`. -/
def retrieve_web (web : Option WebSearchCfg) (now_date : String)
    (query : String) : RetrievalResult :=
  match web with
  | none =>
    { context := "Web search is not enabled.", sources := [],
      retrieval_type := "web_search", error := some "Web search not enabled" }
  | some cfg =>
    let web_results :=
      search_and_extract cfg.env cfg.fetchNet query cfg.fetch_full_content
    if web_results = [] then
      { context := "No web search results found for your query.",
        sources := [], retrieval_type := "web_search",
        num_results := some 0, raw_search_results := some [] }
    else
      { context :=
          "=== 🌐 WEB SEARCH RESULTS (Tavily Enhanced, As of " ++ now_date ++
          ") ===\n\n" ++ "Search Query: " ++ query ++ "\n" ++
          strRepeat '=' 70 ++ "\n\n" ++
          String.join
            ((enumFrom 1 web_results).map fun p => webResultBlock p.1 p.2),
        sources := web_results.map webResultSource,
        retrieval_type := "web_search",
        num_results := some web_results.length,
        raw_search_results := some web_results }

/-- One local block of the hybrid context. -/
def hybridLocalBlock (i : Nat) (d : LocalDoc) : String :=
  let source := d.metaSource.getD "Unknown"
  let page := d.metaPage.getD "N/A"
  let chunk := d.metaChunk.getD "N/A"
  "[Local " ++ toString i ++ "] " ++ source ++ "\n" ++
  (if page ≠ "N/A" then "Page: " ++ page ++ " | " else "") ++
  (if chunk ≠ "N/A" then "Chunk: " ++ chunk ++ "\n" else "") ++
  "Content: " ++ d.page_content ++ "\n\n"

/-- One web block of the hybrid context. -/
def hybridWebBlock (i : Nat) (r : SearchResult) : String :=
  let content := r.full_content.getD r.snippet
  "[Web " ++ toString i ++ "] " ++ r.title ++ " (" ++ r.source ++ ")\n" ++
  (if r.url ≠ "" then "URL: " ++ r.url ++ "\n" else "") ++
  "Content: " ++ content ++ "\n\n"

/-- The source dict built per web result in `_retrieve_hybrid`. -/
def hybridWebSource (r : SearchResult) : Source :=
  { type := "web", title := some r.title, url := some r.url,
    content := some (r.full_content.getD r.snippet),
    source := some r.source }

/-- `IntelligentSourceRouter._retrieve_hybrid` (lines 307-422).  The
inner `try` around the local retriever swallows its exception, leaving
`local_results = []`; likewise for the web side (total here). -/
def retrieve_hybrid (web : Option WebSearchCfg) (now_date : String)
    (query : String)
    (local_retriever : Option (Except String (List LocalDoc))) :
    RetrievalResult :=
  let local_results : List LocalDoc :=
    match local_retriever with
    | none => []
    | some (.error _) => []
    | some (.ok docs) => docs
  let web_results : List SearchResult :=
    match web with
    | none => []
    | some cfg =>
      search_and_extract cfg.env cfg.fetchNet query cfg.fetch_full_content
  let context :=
    "=== 🔄 HYBRID RETRIEVAL RESULTS (As of " ++ now_date ++ ") ===\n\n" ++
    "📄 LOCAL DOCUMENTS:\n" ++ strRepeat '-' 70 ++ "\n" ++
    (if local_results ≠ [] then
      String.join ((enumFrom 1 local_results).map fun p =>
        hybridLocalBlock p.1 p.2)
     else "No local documents found.\n\n") ++
    "\n🌐 WEB SEARCH RESULTS (Tavily Enhanced):\n" ++
    strRepeat '-' 70 ++ "\n" ++
    (if web_results ≠ [] then
      String.join ((enumFrom 1 web_results).map fun p =>
        hybridWebBlock p.1 p.2)
     else "No web results found.\n\n")
  { context := context,
    sources := local_results.map localDocSource ++
      web_results.map hybridWebSource,
    retrieval_type := "hybrid",
    num_local_results := some local_results.length,
    num_web_results := some web_results.length,
    total_results := some (local_results.length + web_results.length),
    raw_search_results := some web_results }

/-- `web_keywords` of `_fallback_datasource_selection`. -/
def router_web_keywords : List String :=
  [ "latest", "current", "recent", "news", "today", "now", "update",
    "2024", "2025", "trending", "new", "latest news", "current events",
    "breaking", "recent developments", "today news" ]

/-- `local_keywords` of `_fallback_datasource_selection`. -/
def router_local_keywords : List String :=
  [ "document", "file", "uploaded", "pdf", "image", "my",
    "attachment", "what does", "according to", "based on" ]

/-- `IntelligentSourceRouter._fallback_datasource_selection`
(lines 424-447). -/
def fallback_datasource_selection (has_uploaded_docs : Bool)
    (query : String) : String :=
  let query_lower := strLower query
  let has_web_intent :=
    router_web_keywords.any fun kw => strContainsSub query_lower kw
  let has_local_intent :=
    router_local_keywords.any fun kw => strContainsSub query_lower kw
  if has_web_intent ∧ has_local_intent ∧ has_uploaded_docs then "hybrid"
  else if has_local_intent ∧ has_uploaded_docs then "local_rag"
  else "web_search"

/-- One entry of `routing_history` as built by `_save_routing_history`
(lines 449-466); every key is set there, so no `Option` except `error`
(`result.get('error', None)`). -/
structure HistoryEntry where
  query : String
  datasource : String
  reasoning : String
  confidence : ℚ
  retrieval_type : String
  num_sources : Nat
  error : Option String := none
  timestamp : String
deriving Repr, DecidableEq

/-- `IntelligentSourceRouter._save_routing_history`: the entry appended
for one outcome (`timestamp` stands for `datetime.now().isoformat()`). -/
def mkHistoryEntry (timestamp : String) (r : RouteOutcome) : HistoryEntry :=
  { query := r.query,
    datasource := r.routing.datasource,
    reasoning := r.routing.reasoning,
    confidence := r.routing.confidence,
    retrieval_type := r.retrieval_type.getD "unknown",
    num_sources := r.sources.length,
    error := r.error,
    timestamp := timestamp }

/-- The router instance state and one call's worth of oracle behaviour:
`classifier = none` models `self.query_classifier is None`; otherwise
the wrapped value is the behaviour of the
`self.query_classifier.classify_query(...)` call, which may raise
(`.error msg` with `msg = str(e)`) — the "structural bug" case the
router's own `except` guards against. -/
structure RouterEnv where
  classifier : Option (Except String Routing)
  web : Option WebSearchCfg
  now_date : String
  now_iso : String

/-- The default routing dict `route_query` starts from. -/
def default_routing : Routing :=
  { datasource := "web_search", reasoning := "Default routing",
    confidence := 0.5, query := "" }

/-- The datasource dispatch of `route_query` step 2 (lines 116-129):
unknown datasources default to the web path. -/
def dispatchRetrieval (env : RouterEnv) (datasource : String)
    (query : String)
    (local_retriever : Option (Except String (List LocalDoc))) :
    RetrievalResult :=
  if datasource = "local_rag" then retrieve_local query local_retriever
  else if datasource = "web_search" then
    retrieve_web env.web env.now_date query
  else if datasource = "hybrid" then
    retrieve_hybrid env.web env.now_date query local_retriever
  else retrieve_web env.web env.now_date query

/-- `IntelligentSourceRouter.route_query` (lines 72-141), as a state
transformer on `routing_history`.  The `except Exception` branch
corresponds exactly to the classifier call raising: every other step of
the `try` block is total (`_retrieve_*` and `_save_routing_history`
catch internally).  Note that in the raising case the history append is
skipped, because `_save_routing_history` sits inside the `try` after
retrieval. -/
def route_query (env : RouterEnv) (query : String)
    (local_retriever : Option (Except String (List LocalDoc)))
    (has_uploaded_docs : Bool) (hist : List HistoryEntry) :
    RouteOutcome × List HistoryEntry :=
  let result0 : RouteOutcome :=
    { query := query,
      routing := { default_routing with query := "" },
      context := "", sources := [], raw_search_results := [] }
  match env.classifier with
  | some (.error e) =>
    ({ result0 with error := some e,
                    context := "Error during routing: " ++ e }, hist)
  | some (.ok classification) =>
    let r1 := { result0 with routing := classification }
    let retrieval :=
      dispatchRetrieval env classification.datasource query local_retriever
    let r2 := r1.applyRetrieval retrieval
    (r2, hist ++ [mkHistoryEntry env.now_iso r2])
  | none =>
    let ds := fallback_datasource_selection has_uploaded_docs query
    let r1 := { result0 with
      routing := { datasource := ds,
                   reasoning := "Default routing (classifier unavailable)",
                   confidence := 0.5, query := "" } }
    let retrieval := dispatchRetrieval env ds query local_retriever
    let r2 := r1.applyRetrieval retrieval
    (r2, hist ++ [mkHistoryEntry env.now_iso r2])

/-! ### get_routing_stats (lines 468-505) -/

/-- The stats dict.  `success_rate` and `routing_history` are only put
into the dict on the non-empty-history branch, hence `Option`. -/
structure RouterStats where
  total_queries : Nat
  by_source : List (String × Nat)
  by_retrieval_type : List (String × Nat)
  avg_confidence : ℚ
  error_count : Nat
  success_rate : Option ℚ := none
  routing_history : Option (List HistoryEntry) := none
deriving Repr, DecidableEq

/-- `m[k] = m.get(k, 0) + 1` on an insertion-ordered dict. -/
def bumpKey (k : String) : List (String × Nat) → List (String × Nat)
  | [] => [(k, 1)]
  | (k', n) :: rest =>
    if k' = k then (k', n + 1) :: rest else (k', n) :: bumpKey k rest

/-- `if entry.get('error'):` — Python truthiness of the error value. -/
def entryHasError (e : HistoryEntry) : Bool := truthyOpt e.error

/-- `IntelligentSourceRouter.get_routing_stats` as a function of the
history list. -/
def get_routing_stats (hist : List HistoryEntry) : RouterStats :=
  if hist = [] then
    { total_queries := 0, by_source := [], by_retrieval_type := [],
      avg_confidence := 0, error_count := 0 }
  else
    let total := hist.length
    let by_source :=
      hist.foldl (fun m e => bumpKey e.datasource m) []
    let by_retrieval_type :=
      hist.foldl (fun m e => bumpKey e.retrieval_type m) []
    let total_confidence :=
      hist.foldl (fun acc e => acc + e.confidence) 0
    let error_count :=
      hist.foldl (fun n e => if entryHasError e then n + 1 else n) 0
    { total_queries := total,
      by_source := by_source,
      by_retrieval_type := by_retrieval_type,
      avg_confidence :=
        if total > 0 then total_confidence / total else 0,
      error_count := error_count,
      success_rate :=
        some (if total > 0 then ((total : ℚ) - error_count) / total else 0),
      routing_history := some hist }

/-- The `get_routing_stats` method viewed as a call on the router
state: it returns the stats and leaves `routing_history` as it was
(the method body only reads `self.routing_history`). -/
def get_routing_stats_call (hist : List HistoryEntry) :
    RouterStats × List HistoryEntry :=
  (get_routing_stats hist, hist)

/-! ## Theorems -/

/-- The fallback chain can never produce an empty result list: the
synthetic generator closes every declining path. -/
theorem search_ne_nil (env : WebEnv) (query : String) (mr : Option Nat) :
    WebSearchEnhanced.search env query mr ≠ [] := by
  simp only [WebSearchEnhanced.search]
  split_ifs with h1 h2 h3 h4 h5
  · exact h1
  · exact h2
  · exact h3
  · exact h4
  · exact h5
  · simp [search_mock]

/-- Every synthetic result carries the synthetic provider tag. -/
theorem search_mock_source (q t d : String) :
    ∀ r ∈ search_mock q t d, r.source = "Local Cache" := by
  intro r hr
  simp only [search_mock, List.mem_cons, List.not_mem_nil, or_false] at hr
  rcases hr with h | h <;> subst h <;> rfl

/-- C1: for every provider configuration and query,
`WebSearchEnhanced.search` returns at least one result, and when every
real provider declines (raises, times out or returns an empty list) the
returned results are exactly the synthetic `search_mock` results, all
tagged with the synthetic provider name `"Local Cache"`, which is none
of the real provider names. -/
theorem C1_search_nonempty_and_mock_fallback (env : WebEnv)
    (query : String) (mr : Option Nat) :
    1 ≤ (WebSearchEnhanced.search env query mr).length ∧
    (((TavilySearchIntegration.search env.tavily_api_key env.tavilyNet
         (resolveLimit mr env.max_results) true).1 = [] ∧
      search_wikipedia env.wikiNet = [] ∧
      search_arxiv env.arxivNet = [] ∧
      (search_google_api env.google_api_key env.google_search_engine_id
         env.googleNet (resolveLimit mr env.max_results)).1 = [] ∧
      (search_bing_api env.bing_api_key env.bingNet
         (resolveLimit mr env.max_results)).1 = []) →
      WebSearchEnhanced.search env query mr =
        search_mock query env.now_time env.now_date ∧
      ∀ r ∈ WebSearchEnhanced.search env query mr,
        r.source = "Local Cache" ∧
        r.source ∉ ["Tavily", "Wikipedia", "ArXiv", "Google", "Bing"]) := by
  constructor
  · have h := search_ne_nil env query mr
    exact Nat.one_le_iff_ne_zero.mpr (fun hz => h (List.eq_nil_of_length_eq_zero hz))
  · rintro ⟨ht, hw, ha, hg, hb⟩
    have hsearch : WebSearchEnhanced.search env query mr =
        search_mock query env.now_time env.now_date := by
      simp only [WebSearchEnhanced.search, ht, hw, ha, hg, hb]
      simp
    refine ⟨hsearch, ?_⟩
    intro r hr
    rw [hsearch] at hr
    have hs := search_mock_source query env.now_time env.now_date r hr
    refine ⟨hs, ?_⟩
    rw [hs]
    decide

/-- Closed witness for C1 at a concrete environment in which every real
provider declines. -/
theorem C1_search_nonempty_and_mock_fallback_witness :
    WebSearchEnhanced.search {} "ai news" none =
      search_mock "ai news" "" "" ∧
    1 ≤ (WebSearchEnhanced.search {} "ai news" none).length :=
  ⟨((C1_search_nonempty_and_mock_fallback {} "ai news" none).2
      ⟨rfl, rfl, rfl, rfl, rfl⟩).1,
   (C1_search_nonempty_and_mock_fallback {} "ai news" none).1⟩

/-- C7: a provider with a missing credential self-reports an immediate
empty result without issuing a network request (the Boolean component
records whether a request was attempted). -/
theorem C7_credential_gating (gk gid bk tk : Option String)
    (gnet : Except Unit (List GoogleItem))
    (bnet : Except Unit (List BingItem))
    (tnet : Except Unit TavilyResponse) (lim : Nat) (ia : Bool) :
    ((truthyOpt gk = false ∨ truthyOpt gid = false) →
       search_google_api gk gid gnet lim = ([], false)) ∧
    (truthyOpt bk = false → search_bing_api bk bnet lim = ([], false)) ∧
    (truthyOpt tk = false →
       TavilySearchIntegration.search tk tnet lim ia = ([], false)) := by
  refine ⟨?_, ?_, ?_⟩
  · intro h
    simp only [search_google_api]
    rw [if_pos h]
  · intro h
    simp only [search_bing_api]
    rw [if_pos h]
  · intro h
    simp only [TavilySearchIntegration.search]
    rw [if_pos h]

/-- Closed witness for C7 with all three credentials absent. -/
theorem C7_credential_gating_witness :
    search_google_api none none (.error ()) 5 = ([], false) ∧
    search_bing_api none (.error ()) 5 = ([], false) ∧
    TavilySearchIntegration.search none (.error ()) 5 true = ([], false) :=
  ⟨(C7_credential_gating none none none none (.error ()) (.error ())
      (.error ()) 5 true).1 (Or.inl rfl),
   (C7_credential_gating none none none none (.error ()) (.error ())
      (.error ()) 5 true).2.1 rfl,
   (C7_credential_gating none none none none (.error ()) (.error ())
      (.error ()) 5 true).2.2 rfl⟩

/-- Python slicing `s[:n]` never yields more than `n` characters. -/
theorem strTake_length_le (s : String) (n : Nat) :
    (strTake s n).length ≤ n := by
  simp only [strTake, String.length, List.length_take]
  exact Nat.min_le_left _ _

/-- C8: `fetch_page_content` never raises and returns either `none` or
a text of at most 3000 characters; a non-HTTP url or any failed request
yields `none`; and `search_and_extract` with content fetching enabled
enriches every result of the whole chain, substituting the original
snippet whenever the per-result fetch fails — so a failed fetch never
aborts the batch. -/
theorem C8_fetch_bounded_and_enrichment_fallback (url : String)
    (net : Except Unit String) (env : WebEnv)
    (fetchNet : String → Except Unit String) (query : String) :
    (fetch_page_content url net = none ∨
      ∃ s, fetch_page_content url net = some s ∧ s.length ≤ 3000) ∧
    (strStartsWith url "http" = false → fetch_page_content url net = none) ∧
    (net = .error () → fetch_page_content url net = none) ∧
    search_and_extract env fetchNet query true =
      (WebSearchEnhanced.search env query none).map (enrichResult fetchNet) ∧
    (∀ r : SearchResult, fetch_page_content r.url (fetchNet r.url) = none →
      (enrichResult fetchNet r).full_content = some r.snippet) := by
  refine ⟨?_, ?_, ?_, ?_, ?_⟩
  · simp only [fetch_page_content]
    split_ifs with h1
    · exact Or.inl rfl
    · match net with
      | .error _ => exact Or.inl rfl
      | .ok raw =>
        simp only
        split_ifs with h2
        · exact Or.inr ⟨_, rfl, strTake_length_le _ _⟩
        · exact Or.inl rfl
  · intro h
    simp only [fetch_page_content]
    rw [if_pos (Or.inr h)]
  · intro h
    subst h
    simp only [fetch_page_content]
    split_ifs with h1
    · rfl
    · rfl
  · simp only [search_and_extract]
    rw [if_neg]
    push_neg
    exact ⟨search_ne_nil env query none, by decide⟩
  · intro r hfail
    simp only [enrichResult]
    split_ifs with h1
    · rw [hfail]
    · rfl

/-- Closed witness for C8: a non-HTTP url and a failing request both
yield `none`, and a result whose fetch fails keeps its snippet. -/
theorem C8_fetch_bounded_and_enrichment_fallback_witness :
    fetch_page_content "ftp://x" (.ok "body") = none ∧
    fetch_page_content "https://x" (.error ()) = none ∧
    (enrichResult (fun _ => .error ())
      { title := "t", url := "https://x", snippet := "snip",
        source := "Wikipedia" }).full_content = some "snip" :=
  ⟨(C8_fetch_bounded_and_enrichment_fallback "ftp://x" (.ok "body") {}
      (fun _ => .error ()) "q").2.1 (by decide),
   (C8_fetch_bounded_and_enrichment_fallback "https://x" (.error ()) {}
      (fun _ => .error ()) "q").2.2.1 rfl,
   (C8_fetch_bounded_and_enrichment_fallback "https://x" (.error ()) {}
      (fun _ => .error ()) "q").2.2.2.2
     { title := "t", url := "https://x", snippet := "snip",
       source := "Wikipedia" } rfl⟩

/-- C4: with no uploaded documents the decision is always
`"web_search"` — on the LLM path (any parse outcome, via the
validation and the no-docs override), on the classifier's heuristic
fallback path, and on the router's own keyword fallback. -/
theorem C4_no_docs_never_local_or_hybrid (llm : Except Unit ParsedResponse)
    (query : String) :
    (classify_query llm query false).datasource = "web_search" ∧
    (fallback_classification query false).datasource = "web_search" ∧
    fallback_datasource_selection false query = "web_search" := by
  have hfb : (fallback_classification query false).datasource =
      "web_search" := by
    simp [fallback_classification]
  refine ⟨?_, hfb, ?_⟩
  · match llm with
    | .error _ => simpa [classify_query] using hfb
    | .ok parsed =>
      by_cases hmem : parsed.datasource ∈ valid_sources.map some
      · have hd : parsed.datasource = some "local_rag" ∨
            parsed.datasource = some "web_search" ∨
            parsed.datasource = some "hybrid" := by
          simpa [valid_sources] using hmem
        rcases hd with h | h | h <;>
          simp [classify_query, hmem, h, valid_sources]
      · have hne : ¬(parsed.datasource = some "local_rag" ∨
            parsed.datasource = some "web_search" ∨
            parsed.datasource = some "hybrid") := by
          simpa [valid_sources] using hmem
        simp [classify_query, valid_sources, hne]
  · simp [fallback_datasource_selection]

/-- C5: with uploaded documents present, a validated `"local_rag"` LLM
decision on a general-knowledge query without document-reference
phrases is overridden to `"web_search"` with the override reasoning and
confidence 0.85. -/
theorem C5_general_knowledge_override (parsed : ParsedResponse)
    (query : String)
    (hds : parsed.datasource = some "local_rag")
    (hgk : is_general_knowledge query = true)
    (hnd : ∀ p ∈ document_indicators,
      strContainsSub (strLower query) p = false) :
    classify_query (.ok parsed) query true =
      { datasource := "web_search",
        reasoning := "General knowledge question - using web search",
        confidence := 0.85, query := query } := by
  simp [classify_query, hds, valid_sources, hgk]

/-- Closed witness for C5 on the query "what is python". -/
theorem C5_general_knowledge_override_witness :
    classify_query
      (.ok { datasource := some "local_rag",
             reasoning := some "query about stored docs",
             confidence := some 0.5 })
      "what is python" true =
      { datasource := "web_search",
        reasoning := "General knowledge question - using web search",
        confidence := 0.85, query := "what is python" } :=
  C5_general_knowledge_override _ "what is python" rfl (by decide)
    (by decide)

/-- A concrete router state whose classifier call raises with the given
message (web search disabled). -/
def classifierRaisingEnv (msg : String) : RouterEnv :=
  { classifier := some (.error msg), web := none, now_date := "",
    now_iso := "" }

/-- A concrete router state whose classifier call returns the given
decision (web search disabled). -/
def classifierOkEnv (r : Routing) : RouterEnv :=
  { classifier := some (.ok r), web := none, now_date := "", now_iso := "" }

/-- A concrete router state with no classifier configured
(`self.query_classifier is None`, web search disabled). -/
def noClassifierEnv : RouterEnv :=
  { classifier := none, web := none, now_date := "", now_iso := "" }

/-- A concrete `local_rag` routing decision. -/
def localRagRouting : Routing :=
  { datasource := "local_rag", reasoning := "needs docs",
    confidence := 0.5, query := "q" }

/-- C2: `route_query` always returns an outcome for the submitted
query; when the classifier call raises, the outcome carries the
exception text in `error`, a context describing the failure, and the
default `web_search` routing decision; when the classifier routes to
`local_rag` and the local retriever raises, the outcome still carries a
populated `error` and a descriptive context. -/
theorem C2_route_query_never_fails (env : RouterEnv) (query : String)
    (lr : Option (Except String (List LocalDoc))) (docs : Bool)
    (hist : List HistoryEntry) :
    (route_query env query lr docs hist).1.query = query ∧
    (∀ e, env.classifier = some (.error e) →
       (route_query env query lr docs hist).1.error = some e ∧
       (route_query env query lr docs hist).1.context =
         "Error during routing: " ++ e ∧
       (route_query env query lr docs hist).1.routing = default_routing) ∧
    (∀ c e, env.classifier = some (.ok c) → c.datasource = "local_rag" →
       lr = some (.error e) →
       (route_query env query lr docs hist).1.error = some e ∧
       (route_query env query lr docs hist).1.context =
         "Error retrieving local documents: " ++ e) := by
  refine ⟨?_, ?_, ?_⟩
  · cases hc : env.classifier with
    | none => simp [route_query, hc, RouteOutcome.applyRetrieval]
    | some ec =>
      cases ec with
      | error e => simp [route_query, hc]
      | ok c => simp [route_query, hc, RouteOutcome.applyRetrieval]
  · intro e he
    simp [route_query, he, default_routing]
  · intro c e hc hds hlr
    simp [route_query, hc, hds, hlr, dispatchRetrieval, retrieve_local,
      RouteOutcome.applyRetrieval, updKey]

/-- Closed witness for C2: one call with a raising classifier, one with
a raising local retriever. -/
theorem C2_route_query_never_fails_witness :
    (route_query (classifierRaisingEnv "llm crashed") "q" none false
      []).1.error = some "llm crashed" ∧
    (route_query (classifierRaisingEnv "llm crashed") "q" none false
      []).1.routing = default_routing ∧
    (route_query (classifierOkEnv localRagRouting) "q"
      (some (.error "io fail")) true []).1.error = some "io fail" :=
  ⟨((C2_route_query_never_fails (classifierRaisingEnv "llm crashed") "q"
      none false []).2.1 "llm crashed" rfl).1,
   ((C2_route_query_never_fails (classifierRaisingEnv "llm crashed") "q"
      none false []).2.1 "llm crashed" rfl).2.2,
   ((C2_route_query_never_fails (classifierOkEnv localRagRouting) "q"
      (some (.error "io fail")) true []).2.2 localRagRouting "io fail"
      rfl rfl rfl).1⟩

/-- C3 counterexample: a call whose classification raises still returns
an outcome carrying the error, but appends no history entry — the
per-call append is skipped because `_save_routing_history` sits inside
the `try` block, after the raising step.  So "every call appends
exactly one entry" fails at this input. -/
theorem C3_counterexample_no_append_on_classifier_raise :
    (route_query (classifierRaisingEnv "boom") "q" none false
      []).1.error = some "boom" ∧
    (route_query (classifierRaisingEnv "boom") "q" none false []).2 =
      [] ∧
    ¬ ((route_query (classifierRaisingEnv "boom") "q" none false
        []).2.length = ([] : List HistoryEntry).length + 1) :=
  ⟨rfl, rfl, by decide⟩

/-- C3 amended: a `route_query` call in which the classifier call does
not raise (it is unavailable, or returns a decision — including calls
whose retrieval step errors internally and sets the outcome's `error`)
appends exactly one history entry; a call whose classification raises
appends none, while still returning the error-carrying outcome. -/
theorem C3_amended_history_append (env : RouterEnv) (query : String)
    (lr : Option (Except String (List LocalDoc))) (docs : Bool)
    (hist : List HistoryEntry) :
    (env.classifier = none →
       (route_query env query lr docs hist).2.length = hist.length + 1) ∧
    (∀ c, env.classifier = some (.ok c) →
       (route_query env query lr docs hist).2.length = hist.length + 1) ∧
    (∀ e, env.classifier = some (.error e) →
       (route_query env query lr docs hist).2 = hist ∧
       (route_query env query lr docs hist).1.error = some e) := by
  refine ⟨?_, ?_, ?_⟩
  · intro h
    simp [route_query, h]
  · intro c h
    simp [route_query, h]
  · intro e h
    simp [route_query, h]

/-- Closed witness for C3's amended statement: one appending call, one
non-appending erroring call. -/
theorem C3_amended_history_append_witness :
    (route_query noClassifierEnv "q" none false []).2.length =
      ([] : List HistoryEntry).length + 1 ∧
    (route_query (classifierRaisingEnv "boom2") "q" none false []).2 =
      [] :=
  ⟨(C3_amended_history_append noClassifierEnv "q" none false []).1 rfl,
   ((C3_amended_history_append (classifierRaisingEnv "boom2") "q" none
      false []).2.2 "boom2" rfl).1⟩

/-! ### Stats lemmas -/

/-- Total count held by an insertion-ordered counter. -/
def sumCounts (m : List (String × Nat)) : Nat := (m.map Prod.snd).sum

/-- Incrementing one key adds exactly one to the total count. -/
theorem sumCounts_bumpKey (k : String) (m : List (String × Nat)) :
    sumCounts (bumpKey k m) = sumCounts m + 1 := by
  induction m with
  | nil => simp [bumpKey, sumCounts]
  | cons p rest ih =>
    obtain ⟨k', n⟩ := p
    simp only [bumpKey]
    split_ifs with h
    · simp [sumCounts]
      omega
    · simp only [sumCounts, List.map_cons, List.sum_cons] at ih ⊢
      omega

/-- Folding the per-entry increment over a history adds the history's
length to the counter's total. -/
theorem sumCounts_foldl_bump (f : HistoryEntry → String)
    (l : List HistoryEntry) (m : List (String × Nat)) :
    sumCounts (l.foldl (fun acc e => bumpKey (f e) acc) m) =
      sumCounts m + l.length := by
  induction l generalizing m with
  | nil => simp
  | cons e rest ih =>
    simp only [List.foldl_cons, List.length_cons]
    rw [ih, sumCounts_bumpKey]
    omega

/-- The confidence-accumulating fold equals the sum of confidences. -/
theorem foldl_conf_sum (l : List HistoryEntry) (a : ℚ) :
    l.foldl (fun acc e => acc + e.confidence) a =
      a + (l.map fun e => e.confidence).sum := by
  induction l generalizing a with
  | nil => simp
  | cons e rest ih =>
    simp only [List.foldl_cons, List.map_cons, List.sum_cons]
    rw [ih]
    ring

/-- The error-counting fold counts the entries with truthy errors. -/
theorem foldl_err_count (l : List HistoryEntry) (n : Nat) :
    l.foldl (fun acc e => if entryHasError e then acc + 1 else acc) n =
      n + l.countP entryHasError := by
  induction l generalizing n with
  | nil => simp
  | cons e rest ih =>
    simp only [List.foldl_cons, List.countP_cons]
    split_ifs with h
    · rw [ih]
      omega
    · rw [ih]
      omega

/-- C6 counterexample: after zero calls the stats dict omits the
`success_rate` key (modelled as `none`) instead of reporting a zero
success rate as the claim states. -/
theorem C6_counterexample_empty_stats_no_success_rate :
    (get_routing_stats []).success_rate = none ∧
    (get_routing_stats []).success_rate ≠ some 0 :=
  ⟨rfl, by decide⟩

/-- C6 amended: after K calls, the sum of the `by_source` counts is K,
the average confidence is the arithmetic mean of the recorded
confidences, the error count is the number of entries with a non-empty
error, and the success rate is `(K - errorCount) / K` for K > 0; for
K = 0 the stats are the zero structure with zero total, empty maps,
zero average confidence and zero error count, but with the
`success_rate` (and `routing_history`) keys omitted rather than zero. -/
theorem C6_amended_stats_correct (hist : List HistoryEntry) :
    (get_routing_stats hist).total_queries = hist.length ∧
    sumCounts (get_routing_stats hist).by_source = hist.length ∧
    (hist ≠ [] → (get_routing_stats hist).avg_confidence =
       (hist.map fun e => e.confidence).sum / (hist.length : ℚ)) ∧
    (get_routing_stats hist).error_count = hist.countP entryHasError ∧
    (hist ≠ [] → (get_routing_stats hist).success_rate =
       some (((hist.length : ℚ) - (hist.countP entryHasError : ℚ)) /
         (hist.length : ℚ))) ∧
    get_routing_stats [] =
      { total_queries := 0, by_source := [], by_retrieval_type := [],
        avg_confidence := 0, error_count := 0, success_rate := none,
        routing_history := none } := by
  by_cases h : hist = []
  · subst h
    exact ⟨rfl, rfl, by simp, rfl, by simp, by decide⟩
  · have hlen : 0 < hist.length := List.length_pos.mpr h
    refine ⟨?_, ?_, ?_, ?_, ?_, by decide⟩
    · simp [get_routing_stats, h]
    · simp only [get_routing_stats, if_neg h]
      rw [sumCounts_foldl_bump]
      simp [sumCounts]
    · intro _
      simp only [get_routing_stats, if_neg h]
      rw [if_pos hlen, foldl_conf_sum]
      norm_num
    · simp only [get_routing_stats, if_neg h]
      rw [foldl_err_count]
      omega
    · intro _
      simp only [get_routing_stats, if_neg h]
      rw [if_pos hlen, foldl_err_count]
      norm_num

/-- A two-entry demonstration history: one successful call, one call
recorded with a non-empty error. -/
def demoHistory : List HistoryEntry :=
  [ { query := "a", datasource := "web_search", reasoning := "r1",
      confidence := 0.5, retrieval_type := "web_search",
      num_sources := 2, error := none, timestamp := "t1" },
    { query := "b", datasource := "local_rag", reasoning := "r2",
      confidence := 1, retrieval_type := "local_rag",
      num_sources := 0, error := some "bad", timestamp := "t2" } ]

/-- Closed witness for C6's amended statement on a concrete two-entry
history. -/
theorem C6_amended_stats_correct_witness :
    (get_routing_stats demoHistory).avg_confidence =
      (demoHistory.map fun e => e.confidence).sum /
        (demoHistory.length : ℚ) ∧
    (get_routing_stats demoHistory).success_rate =
      some (((demoHistory.length : ℚ) -
        (demoHistory.countP entryHasError : ℚ)) /
          (demoHistory.length : ℚ)) ∧
    sumCounts (get_routing_stats demoHistory).by_source =
      demoHistory.length :=
  ⟨(C6_amended_stats_correct demoHistory).2.2.1 (by decide),
   (C6_amended_stats_correct demoHistory).2.2.2.2.1 (by decide),
   (C6_amended_stats_correct demoHistory).2.1⟩

/-- C9: reading the stats is idempotent and leaves the routing history
untouched: two `get_routing_stats` calls with no intervening
`route_query` yield identical stats, and the state after a call is the
state before it. -/
theorem C9_stats_idempotent_pure (hist : List HistoryEntry) :
    (get_routing_stats_call hist).2 = hist ∧
    (get_routing_stats_call ((get_routing_stats_call hist).2)).1 =
      (get_routing_stats_call hist).1 :=
  ⟨rfl, rfl⟩

/-- C10: with a non-empty history the stats dict embeds the complete
routing history under the `routing_history` key; with an empty history
that key is absent. -/
theorem C10_stats_embed_history (hist : List HistoryEntry) :
    (hist ≠ [] →
      (get_routing_stats hist).routing_history = some hist) ∧
    (get_routing_stats []).routing_history = none := by
  constructor
  · intro h
    simp [get_routing_stats, h]
  · rfl

/-- Closed witness for C10 on the two-entry demonstration history. -/
theorem C10_stats_embed_history_witness :
    (get_routing_stats demoHistory).routing_history = some demoHistory :=
  (C10_stats_embed_history demoHistory).1 (by decide)

end NLP
